import Mathlib

/-!
Verification of the image-locator, color-adapter, modal-navigation and
export logic of the portfolio site's Excalidraw viewer components.

The definitions below are shallow embeddings of the TypeScript functions
`isDarkColor`, `toLight`, `identifyImages`, `navigateToNextImage`,
`navigateToPrevImage`, the modal keyboard handler, `handlePrintPDF`,
`handleAfterPrint` and `handleDownloadSVG`.  JavaScript strings become
`String`, JavaScript numbers used as integers become `Int`/`Nat`, a value
that may be `undefined` becomes an `Option`, and the luma expression that
the source evaluates in IEEE doubles is modelled bit-exactly: every value
arising in it is a dyadic rational `m * 2^e`, and each product and sum is
rounded to 53 significant bits with ties to even, as double arithmetic
does (no overflow or subnormals occur in the range used).
-/

/-- One character of the class [0-9a-f] matched case-insensitively, as in the
regular expression of `isDarkColor`. -/
def isHexDigitJS (c : Char) : Bool :=
  decide ((48 ≤ c.toNat ∧ c.toNat ≤ 57) ∨ (97 ≤ c.toNat ∧ c.toNat ≤ 102) ∨
    (65 ≤ c.toNat ∧ c.toNat ≤ 70))

/-- Numeric value of a hex digit, as `parseInt(-, 16)` assigns it. -/
def hexVal (c : Char) : Nat :=
  if 48 ≤ c.toNat ∧ c.toNat ≤ 57 then c.toNat - 48
  else if 97 ≤ c.toNat ∧ c.toNat ≤ 102 then c.toNat - 87
  else if 65 ≤ c.toNat ∧ c.toNat ≤ 70 then c.toNat - 55
  else 0

/-- Drop the optional leading hash sign, as the regex `^#?` does. -/
def stripHash (cs : List Char) : List Char :=
  match cs with
  | c :: rest => if c = '#' then rest else cs
  | [] => []

/-- The capture group of the regex match `/^#?([0-9a-f]\x7b6\x7d)$/i` applied to `s`:
the six hex digits when the string matches, `none` otherwise. -/
def matchHex6 (s : String) : Option (List Char) :=
  let body := stripHash s.toList
  if body.length = 6 ∧ body.all isHexDigitJS = true then some body else none

/-- The value `parseInt(match, 16)` of a digit string. -/
def parseHexNat (cs : List Char) : Nat :=
  cs.foldl (fun a c => 16 * a + hexVal c) 0

/-- Bit length of a natural number, by structural recursion on a fuel
argument; the fuel 128 covers every value arising in the luma evaluation
(all are below 2^80). -/
def bitLenAux : Nat → Nat → Nat
  | 0, _ => 0
  | fuel + 1, n => if n = 0 then 0 else bitLenAux fuel (n / 2) + 1

def bitLen (n : Nat) : Nat := bitLenAux 128 n

/-- Round the nonnegative dyadic value `m * 2^e` to 53 significant bits,
to nearest with ties to even, as IEEE double arithmetic rounds every
result. -/
def roundMantissa (m : Nat) (e : Int) : Nat × Int :=
  if m = 0 then (0, 0)
  else
    let L := bitLen m
    if L ≤ 53 then (m, e)
    else
      let k := L - 53
      let q := m >>> k
      let r := m &&& (2 ^ k - 1)
      let half := 2 ^ (k - 1)
      if half < r ∨ (r = half ∧ q % 2 = 1) then (q + 1, e + (k : Int))
      else (q, e + (k : Int))

/-- IEEE double addition of two dyadic values: exact sum, then rounding. -/
def dyAdd (a b : Nat × Int) : Nat × Int :=
  let e := min a.2 b.2
  roundMantissa (a.1 * 2 ^ (a.2 - e).toNat + b.1 * 2 ^ (b.2 - e).toNat) e

/-- IEEE double multiplication of a dyadic value by a small natural number
(the channel, exactly representable): exact product, then rounding. -/
def dyMulNat (a : Nat × Int) (n : Nat) : Nat × Int :=
  roundMantissa (a.1 * n) a.2

/-- Exact order comparison of two dyadic values. -/
def dyLt (a b : Nat × Int) : Bool :=
  let e := min a.2 b.2
  decide (a.1 * 2 ^ (a.2 - e).toNat < b.1 * 2 ^ (b.2 - e).toNat)

/-- The IEEE double denoted by the literal `0.2126`:
`7659722246231740 * 2^-55`. -/
def dbl2126 : Nat × Int := (7659722246231740, -55)

/-- The IEEE double denoted by the literal `0.7152`:
`6441948906990757 * 2^-53`. -/
def dbl7152 : Nat × Int := (6441948906990757, -53)

/-- The IEEE double denoted by the literal `0.0722`:
`5202558289538397 * 2^-56`. -/
def dbl0722 : Nat × Int := (5202558289538397, -56)

/-- The test `0.2126 * r + 0.7152 * g + 0.0722 * b < 90` exactly as the
source's double arithmetic evaluates it: both products of the left
association are rounded, both sums are rounded, and the comparison with the
exactly representable 90 is exact. -/
def lumaLt90Double (r g b : Nat) : Bool :=
  dyLt
    (dyAdd (dyAdd (dyMulNat dbl2126 r) (dyMulNat dbl7152 g))
      (dyMulNat dbl0722 b))
    (90, 0)

/-- Embedding of `isDarkColor` from the viewer component.  The source
extracts the channels with `(int >> 16) & 255` and friends and tests
`0.2126*r + 0.7152*g + 0.0722*b < 90` in IEEE doubles; the test is the
bit-exact double evaluation `lumaLt90Double`. -/
def isDarkColor (hex : String) : Bool :=
  match matchHex6 hex with
  | none => false
  | some body =>
    let i := parseHexNat body
    let r := (i >>> 16) &&& 255
    let g := (i >>> 8) &&& 255
    let b := i &&& 255
    lumaLt90Double r g b

/-- Embedding of `toLight`.  On a string input the guard `!hex` of the source
only fires for the empty string, which is returned unchanged. -/
def toLight (hex : String) : String :=
  if hex = "" then hex
  else if hex = "transparent" then hex
  else if isDarkColor hex = true then "#e5e7eb" else hex

/-- Spec-side reading of the six matched digits: the first pair is the R
channel, the second pair G, the third pair B. -/
def specChannels : List Char → Nat × Nat × Nat
  | [d1, d2, d3, d4, d5, d6] =>
      (16 * hexVal d1 + hexVal d2, 16 * hexVal d3 + hexVal d4, 16 * hexVal d5 + hexVal d6)
  | _ => (0, 0, 0)

/-- Spec-side luma `0.2126 R + 0.7152 G + 0.0722 B`, scaled by 10000 so that
the threshold 90 becomes 900000. -/
def specLumaScaled (rgb : Nat × Nat × Nat) : Nat :=
  2126 * rgb.1 + 7152 * rgb.2.1 + 722 * rgb.2.2

/-- One record of the drawing's `files` map.  A field that may be missing or
`undefined` in the JavaScript object is an `Option`; `none` models absence. -/
structure AssetRecord where
  dataURL : Option String
  data : Option String
  mimeType : Option String
  name : Option String
  id : Option String
  deriving Repr, DecidableEq

/-- One Excalidraw drawing element, restricted to the fields `identifyImages`
reads. -/
structure DrawingElement where
  id : String
  type : String
  fileId : Option String
  x : Option Int
  y : Option Int
  width : Option Int
  height : Option Int
  deriving Repr, DecidableEq

/-- The `ImageInfo` record produced by `identifyImages`. -/
structure ImageInfo where
  id : String
  fileId : String
  x : Int
  y : Int
  width : Int
  height : Int
  fileName : Option String
  mimeType : Option String
  dataUrl : Option String
  deriving Repr, DecidableEq

/-- JavaScript truthiness of a possibly-missing string: `undefined` and the
empty string are falsy. -/
def jsTruthy : Option String → Bool
  | some s => s != ""
  | none => false

/-- JavaScript `a || b` on a possibly-missing string `a` and a string `b`. -/
def jsOr (a : Option String) (b : String) : String :=
  match a with
  | some s => if s = "" then b else s
  | none => b

/-- The body of the `identifyImages` loop for one qualifying element: look the
asset record up and build the descriptor.  Mirrors lines 58-94 of the
component: `dataURL` is used verbatim when truthy, else a data URL is built
from `data` with the mime type defaulting to `image/png`, else the field
stays `undefined`; `fileName` is `name || id || fileId`; geometry fields use
`?? 0`. -/
def resolveImage (files : List (String × AssetRecord)) (element : DrawingElement) :
    ImageInfo :=
  let fid := (element.fileId).getD ""
  match files.lookup fid with
  | some fileData =>
    let dataUrl : Option String :=
      if jsTruthy fileData.dataURL then fileData.dataURL
      else if jsTruthy fileData.data then
        some ("data:" ++ jsOr fileData.mimeType "image/png" ++ ";base64," ++
          (fileData.data).getD "")
      else none
    { id := element.id, fileId := fid,
      x := (element.x).getD 0, y := (element.y).getD 0,
      width := (element.width).getD 0, height := (element.height).getD 0,
      fileName := some (jsOr fileData.name (jsOr fileData.id fid)),
      mimeType := some (jsOr fileData.mimeType "image/png"),
      dataUrl := dataUrl }
  | none =>
    { id := element.id, fileId := fid,
      x := (element.x).getD 0, y := (element.y).getD 0,
      width := (element.width).getD 0, height := (element.height).getD 0,
      fileName := none, mimeType := none, dataUrl := none }

/-- The qualification test of the loop: `element.type === 'image' &&
element.fileId`. -/
def isImageElement (element : DrawingElement) : Bool :=
  element.type == "image" && jsTruthy element.fileId

/-- Embedding of `identifyImages`: walk the element list in order and push one
descriptor per qualifying element. -/
def identifyImages (elements : List DrawingElement)
    (files : List (String × AssetRecord)) : List ImageInfo :=
  match elements with
  | [] => []
  | element :: rest =>
    if isImageElement element = true then
      resolveImage files element :: identifyImages rest files
    else
      identifyImages rest files

/-- Dynamic JavaScript value, for the safety analysis of `identifyImages` on
arbitrary (also malformed) inputs. -/
inductive JSVal where
  | vNull
  | vUndef
  | vBool (b : Bool)
  | vNum (n : Int)
  | vStr (s : String)
  | vObj (fields : List (String × JSVal))

/-- Is the value `null` or `undefined` (the receivers on which a property
read throws)? -/
def JSVal.isNullish : JSVal → Bool
  | .vNull => true
  | .vUndef => true
  | _ => false

/-- JavaScript truthiness of a dynamic value (NaN is not modelled). -/
def JSVal.truthy : JSVal → Bool
  | .vNull => false
  | .vUndef => false
  | .vBool b => b
  | .vNum n => n != 0
  | .vStr s => s != ""
  | .vObj _ => true

/-- Property read `v[k]`: throws a `TypeError` on `null`/`undefined`, returns
the own property (or `undefined`) on objects, and `undefined` on other
primitives (no built-in properties are modelled). -/
def JSVal.getProp : JSVal → String → Except String JSVal
  | .vNull, _ => Except.error "TypeError: Cannot read properties of null"
  | .vUndef, _ => Except.error "TypeError: Cannot read properties of undefined"
  | .vObj fields, k => Except.ok ((fields.lookup k).getD JSVal.vUndef)
  | _, _ => Except.ok JSVal.vUndef

/-- Total property read, used once the receiver is known not to be nullish. -/
def JSVal.getPropD : JSVal → String → JSVal
  | .vObj fields, k => (fields.lookup k).getD JSVal.vUndef
  | _, _ => JSVal.vUndef

/-- String conversion of a dynamic value, as used for property keys and in
template literals. -/
def JSVal.toKeyString : JSVal → String
  | .vStr s => s
  | .vNum n => toString n
  | .vBool b => if b then "true" else "false"
  | .vNull => "null"
  | .vUndef => "undefined"
  | .vObj _ => "[object Object]"

/-- Does a string equality test `v === lit` succeed against a string
literal? -/
def JSVal.isStrEq : JSVal → String → Bool
  | .vStr s, t => s == t
  | _, _ => false

/-- Nullish coalescing `v ?? d`. -/
def jsNullish (v : JSVal) (d : JSVal) : JSVal :=
  match v with
  | .vNull => d
  | .vUndef => d
  | _ => v

/-- The descriptor object pushed for one qualifying element.  All property
reads here are on receivers already known not to be nullish (`element`
survived the `element.type` read, and `fileData` reads are guarded by its
truthiness), so the total read is used. -/
def imageDescriptorOf (element : JSVal) (fileData : JSVal) (fid : JSVal) : JSVal :=
  let dataUrl :=
    if fileData.truthy then
      let du := fileData.getPropD "dataURL"
      if du.truthy then du
      else
        let raw := fileData.getPropD "data"
        if raw.truthy then
          let mt := fileData.getPropD "mimeType"
          let mime := if mt.truthy then mt.toKeyString else "image/png"
          JSVal.vStr ("data:" ++ mime ++ ";base64," ++ raw.toKeyString)
        else JSVal.vUndef
    else JSVal.vUndef
  let fileName :=
    if fileData.truthy then
      let nm := fileData.getPropD "name"
      if nm.truthy then nm
      else
        let rid := fileData.getPropD "id"
        if rid.truthy then rid else fid
    else JSVal.vUndef
  let mimeType :=
    if fileData.truthy then
      let mt := fileData.getPropD "mimeType"
      if mt.truthy then mt else JSVal.vStr "image/png"
    else JSVal.vUndef
  JSVal.vObj [("id", element.getPropD "id"), ("fileId", fid),
    ("x", jsNullish (element.getPropD "x") (JSVal.vNum 0)),
    ("y", jsNullish (element.getPropD "y") (JSVal.vNum 0)),
    ("width", jsNullish (element.getPropD "width") (JSVal.vNum 0)),
    ("height", jsNullish (element.getPropD "height") (JSVal.vNum 0)),
    ("fileName", fileName), ("mimeType", mimeType), ("dataUrl", dataUrl)]

/-- Is the value `null` (the one nullish value the `files = ` default
parameter does not replace)? -/
def JSVal.isNull : JSVal → Bool
  | .vNull => true
  | _ => false

/-- Default-parameter substitution: a declared default replaces the argument
exactly when the caller passes `undefined`. -/
def jsDefaultArg (v : JSVal) (d : JSVal) : JSVal :=
  match v with
  | .vUndef => d
  | _ => v

/-- The loop of `identifyImages` over dynamic values, with the property
reads that can throw made explicit: `element.type` throws when the element is
`null`/`undefined`, and `files[fileId]` throws when the files value is
`null`/`undefined`. -/
def identifyImagesLoop : List JSVal → JSVal → Except String (List JSVal)
  | [], _ => Except.ok []
  | element :: rest, files =>
    match element.getProp "type" with
    | Except.error msg => Except.error msg
    | Except.ok t =>
      if t.isStrEq "image" ∧ (element.getPropD "fileId").truthy = true then
        match files.getProp (element.getPropD "fileId").toKeyString with
        | Except.error msg => Except.error msg
        | Except.ok fileData =>
          match identifyImagesLoop rest files with
          | Except.error msg => Except.error msg
          | Except.ok tail =>
            Except.ok (imageDescriptorOf element fileData (element.getPropD "fileId") :: tail)
      else
        identifyImagesLoop rest files

/-- Embedding of the `identifyImages` entry point over dynamic values.  The
declared default parameter `files = ` empty object substitutes the empty
object when the caller passes `undefined` (but not when it passes `null`);
the loop then runs on the substituted value. -/
def identifyImagesDyn (elements : List JSVal) (files : JSVal) :
    Except String (List JSVal) :=
  identifyImagesLoop elements (jsDefaultArg files (JSVal.vObj []))

/-- Modal lightbox state of the viewer component. -/
structure ModalState where
  isModalOpen : Bool
  selectedImage : Option ImageInfo
  currentImageIndex : Int
  deriving Repr, DecidableEq

/-- JavaScript array indexing `l[i]`: `undefined` outside the bounds. -/
def jsIndex (l : List ImageInfo) (i : Int) : Option ImageInfo :=
  if i < 0 then none else l[i.toNat]?

/-- Embedding of `navigateToNextImage`: a no-op on an empty image list,
otherwise advance to `(currentImageIndex + 1) % identifiedImages.length`
(the `%` of the source is JavaScript's truncated remainder, `Int.tmod`). -/
def navigateToNextImage (identifiedImages : List ImageInfo) (s : ModalState) :
    ModalState :=
  if identifiedImages.length = 0 then s
  else
    let nextIndex := Int.tmod (s.currentImageIndex + 1) identifiedImages.length
    { s with currentImageIndex := nextIndex,
             selectedImage := jsIndex identifiedImages nextIndex }

/-- Embedding of `navigateToPrevImage`: a no-op on an empty image list,
otherwise move to `(currentImageIndex - 1 + length) % length`. -/
def navigateToPrevImage (identifiedImages : List ImageInfo) (s : ModalState) :
    ModalState :=
  if identifiedImages.length = 0 then s
  else
    let prevIndex :=
      Int.tmod (s.currentImageIndex - 1 + identifiedImages.length)
        identifiedImages.length
    { s with currentImageIndex := prevIndex,
             selectedImage := jsIndex identifiedImages prevIndex }

/-- Embedding of the modal keydown handler.  The effect installing it runs
only while `isModalOpen` is true, so a key event in the closed state leaves
the state unchanged; Escape clears the selected image and closes the modal;
the arrow keys navigate. -/
def handleKeyboard (identifiedImages : List ImageInfo) (s : ModalState)
    (key : String) : ModalState :=
  if s.isModalOpen = false then s
  else if key = "Escape" then { s with isModalOpen := false, selectedImage := none }
  else if key = "ArrowRight" then navigateToNextImage identifiedImages s
  else if key = "ArrowLeft" then navigateToPrevImage identifiedImages s
  else s

/-- Theme-related document state touched by the export buttons: the `dark`
class on the document element, the `theme` key in local storage, the
`previousThemeRef` ref and the printing flag. -/
structure ThemeState where
  docDark : Bool
  storedTheme : String
  previousTheme : Option String
  isPrinting : Bool
  deriving Repr, DecidableEq

/-- Embedding of `handlePrintPDF` restricted to the modelled state: blocked
while the viewer loads; otherwise it records the current theme in
`previousThemeRef`, removes the `dark` class and stores the light theme.
The re-render, the settle delay and the `window.print()` call do not touch
the modelled state. -/
def handlePrintPDF (isExcalLoading : Bool) (s : ThemeState) : ThemeState :=
  if isExcalLoading = true then s
  else
    { docDark := false,
      storedTheme := "light",
      previousTheme := some (if s.docDark then "dark" else "light"),
      isPrinting := true }

/-- Embedding of the `afterprint` handler: restore the recorded theme. -/
def handleAfterPrint (s : ThemeState) : ThemeState :=
  if s.previousTheme = some "dark" then
    { s with docDark := true, storedTheme := "dark", isPrinting := false }
  else
    { s with docDark := false, storedTheme := "light", isPrinting := false }

/-- The function-valued properties the viewer component installs on the
`[data-excal]` container (lines 150-159 of the component). -/
def excalExposedKeys : List String :=
  ["__generateLightSVG", "__forceLightRender", "__isLoading"]

/-- Environment of one invocation of `handleDownloadSVG`. -/
structure DownloadEnv where
  isExcalLoading : Bool
  excalPresent : Bool
  excalKeys : List String
  regenResult : Option String
  renderedSvg : Option String
  articleSvg : Option String
  deriving Repr, DecidableEq

/-- Outcome of one invocation of `handleDownloadSVG`. -/
inductive DownloadOutcome where
  | blocked
  | noDrawing
  | regenerated (svg : String)
  | renderedCurrent (svg : String)
  | articleFallback (svg : String)
  | noSvg
  deriving Repr, DecidableEq

/-- Embedding of `handleDownloadSVG`: blocked while loading; alert when no
`[data-excal]` container exists; call `__generateSVG` only when the container
has such a property; otherwise fall back to the currently rendered SVG and
then to the article-level SVG. -/
def handleDownloadSVG (env : DownloadEnv) : DownloadOutcome :=
  if env.isExcalLoading = true then DownloadOutcome.blocked
  else if env.excalPresent = false then DownloadOutcome.noDrawing
  else
    let fromGenerator : Option String :=
      if env.excalKeys.contains "__generateSVG" then env.regenResult else none
    match fromGenerator with
    | some svg => DownloadOutcome.regenerated svg
    | none =>
      match env.renderedSvg with
      | some svg => DownloadOutcome.renderedCurrent svg
      | none =>
        match env.articleSvg with
        | some svg => DownloadOutcome.articleFallback svg
        | none => DownloadOutcome.noSvg

/-- Sample image element used by the concrete witnesses. -/
def sampleImageElement : DrawingElement :=
  { id := "el1", type := "image", fileId := some "f1",
    x := none, y := some 3, width := none, height := none }

/-- Sample asset holding only raw base64 bytes and a jpeg media type. -/
def assetRawJpeg : AssetRecord :=
  { dataURL := none, data := some "QUJD", mimeType := some "image/jpeg",
    name := none, id := none }

/-- Sample asset holding a ready data URL and a record identifier. -/
def assetReady : AssetRecord :=
  { dataURL := some "data:image/png;base64,AAA", data := some "BBB",
    mimeType := none, name := none, id := some "asset7" }

/-- Sample descriptors used by the modal-navigation witnesses. -/
def sampleImage1 : ImageInfo :=
  { id := "el1", fileId := "f1", x := 0, y := 0, width := 10, height := 10,
    fileName := none, mimeType := none, dataUrl := none }

def sampleImage2 : ImageInfo :=
  { id := "el2", fileId := "f2", x := 1, y := 1, width := 20, height := 20,
    fileName := none, mimeType := none, dataUrl := none }

def sampleOpenModal : ModalState :=
  { isModalOpen := true, selectedImage := some sampleImage1,
    currentImageIndex := 0 }

def sampleDownloadEnv : DownloadEnv :=
  { isExcalLoading := false, excalPresent := true, excalKeys := excalExposedKeys,
    regenResult := some "regen", renderedSvg := some "current",
    articleSvg := some "article" }

theorem hexVal_lt_16 (c : Char) : hexVal c < 16 := by
  unfold hexVal
  split_ifs <;> omega

theorem exists_six (l : List Char) (h : l.length = 6) :
    ∃ d1 d2 d3 d4 d5 d6, l = [d1, d2, d3, d4, d5, d6] := by
  obtain ⟨d1, l, rfl⟩ := List.exists_of_length_succ l h
  obtain ⟨d2, l, rfl⟩ := List.exists_of_length_succ l (by simpa using h)
  obtain ⟨d3, l, rfl⟩ := List.exists_of_length_succ l (by simpa using h)
  obtain ⟨d4, l, rfl⟩ := List.exists_of_length_succ l (by simpa using h)
  obtain ⟨d5, l, rfl⟩ := List.exists_of_length_succ l (by simpa using h)
  obtain ⟨d6, l, rfl⟩ := List.exists_of_length_succ l (by simpa using h)
  have hl : l = [] := List.length_eq_zero.mp (by simpa using h)
  subst hl
  exact ⟨d1, d2, d3, d4, d5, d6, rfl⟩

theorem and_255_eq_mod (x : Nat) : x &&& 255 = x % 256 := by
  have h := Nat.and_pow_two_sub_one_eq_mod x 8
  norm_num at h
  exact h

theorem parseHex6_channels (d1 d2 d3 d4 d5 d6 : Char) :
    ((parseHexNat [d1, d2, d3, d4, d5, d6] >>> 16) &&& 255,
     (parseHexNat [d1, d2, d3, d4, d5, d6] >>> 8) &&& 255,
     parseHexNat [d1, d2, d3, d4, d5, d6] &&& 255)
      = specChannels [d1, d2, d3, d4, d5, d6] := by
  have h1 := hexVal_lt_16 d1
  have h2 := hexVal_lt_16 d2
  have h3 := hexVal_lt_16 d3
  have h4 := hexVal_lt_16 d4
  have h5 := hexVal_lt_16 d5
  have h6 := hexVal_lt_16 d6
  simp only [parseHexNat, List.foldl, specChannels]
  rw [Nat.shiftRight_eq_div_pow, Nat.shiftRight_eq_div_pow,
    and_255_eq_mod, and_255_eq_mod, and_255_eq_mod]
  norm_num
  refine ⟨?_, ?_, ?_⟩ <;> omega

theorem matchHex6_empty : matchHex6 "" = none := rfl

theorem matchHex6_transparent : matchHex6 "transparent" = none := rfl

theorem toLight_of_not_match (c : String) (h : matchHex6 c = none) : toLight c = c := by
  unfold toLight
  have hdark : isDarkColor c = false := by
    unfold isDarkColor
    rw [h]
  split_ifs with h1 h2 h3 <;> simp_all

/-- Certificate that the three dyadic constants are exactly the IEEE doubles
nearest the source literals `0.2126`, `0.7152` and `0.0722`: each mantissa
lies in [2^52, 2^53) and differs from the correspondingly scaled literal by
strictly less than half a unit in the last place, so each is the unique
correctly rounded double. -/
theorem dbl_constants_correctly_rounded :
    (2 ^ 52 ≤ dbl2126.1 ∧ dbl2126.1 < 2 ^ 53 ∧ dbl2126.2 = -55 ∧
      (dbl2126.1 : Int) * 10000 - 2126 * 2 ^ 55 = 4032 ∧ 2 * 4032 < 10000) ∧
    (2 ^ 52 ≤ dbl7152.1 ∧ dbl7152.1 < 2 ^ 53 ∧ dbl7152.2 = -53 ∧
      (dbl7152.1 : Int) * 10000 - 7152 * 2 ^ 53 = -4784 ∧ 2 * 4784 < 10000) ∧
    (2 ^ 52 ≤ dbl0722.1 ∧ dbl0722.1 < 2 ^ 53 ∧ dbl0722.2 = -56 ∧
      (dbl0722.1 : Int) * 10000 - 722 * 2 ^ 56 = 208 ∧ 2 * 208 < 10000) := by
  decide

/-- Counterexample to C3 as stated: the exact luma
`0.2126 R + 0.7152 G + 0.0722 B` of the color `#2a61a2` is exactly 90, not
below the threshold, so the claim requires the color to pass through
unchanged — yet the program substitutes the light-gray replacement, because
its double-precision evaluation of the luma rounds below 90. -/
theorem toLight_exact_luma_tie_substituted :
    specLumaScaled (specChannels ['2', 'a', '6', '1', 'a', '2']) = 900000 ∧
    matchHex6 "#2a61a2" = some ['2', 'a', '6', '1', 'a', '2'] ∧
    toLight "#2a61a2" = "#e5e7eb" := by
  refine ⟨by decide, by rfl, by decide⟩

/-- Claim C3 (amended): for a six-hex-digit color (optionally hash-prefixed),
`toLight` returns the fixed light-gray substitute `#e5e7eb` exactly when the
program's double-precision evaluation of the luma
`0.2126 R + 0.7152 G + 0.0722 B` is below the threshold 90, and returns the
color unchanged otherwise; black is substituted, white is kept, and the
literal `transparent` and every non-matching or malformed input pass through
unchanged.  The double evaluation agrees with the exact luma comparison
except at an exact tie at 90, where rounding decides. -/
theorem toLight_characterization (c : String) :
    (∀ body, matchHex6 c = some body →
       ((lumaLt90Double (specChannels body).1 (specChannels body).2.1
            (specChannels body).2.2 = true → toLight c = "#e5e7eb") ∧
        (lumaLt90Double (specChannels body).1 (specChannels body).2.1
            (specChannels body).2.2 = false → toLight c = c))) ∧
    (matchHex6 c = none → toLight c = c) ∧
    toLight "#000000" = "#e5e7eb" ∧
    toLight "#ffffff" = "#ffffff" ∧
    toLight "transparent" = "transparent" := by
  refine ⟨?_, toLight_of_not_match c, by decide, by decide, by rfl⟩
  intro body hbody
  have hne : c ≠ "" := by
    intro hc
    rw [hc, matchHex6_empty] at hbody
    exact Option.noConfusion hbody
  have hnt : c ≠ "transparent" := by
    intro hc
    rw [hc, matchHex6_transparent] at hbody
    exact Option.noConfusion hbody
  have hlen : body.length = 6 := by
    simp only [matchHex6] at hbody
    split_ifs at hbody with hcond
    cases hbody
    exact hcond.1
  obtain ⟨d1, d2, d3, d4, d5, d6, rfl⟩ := exists_six body hlen
  have hch := parseHex6_channels d1 d2 d3 d4 d5 d6
  have hr : ((parseHexNat [d1, d2, d3, d4, d5, d6] >>> 16) &&& 255)
      = (specChannels [d1, d2, d3, d4, d5, d6]).1 := by
    rw [← hch]
  have hg : ((parseHexNat [d1, d2, d3, d4, d5, d6] >>> 8) &&& 255)
      = (specChannels [d1, d2, d3, d4, d5, d6]).2.1 := by
    rw [← hch]
  have hb : (parseHexNat [d1, d2, d3, d4, d5, d6] &&& 255)
      = (specChannels [d1, d2, d3, d4, d5, d6]).2.2 := by
    rw [← hch]
  have hdark : isDarkColor c
      = lumaLt90Double (specChannels [d1, d2, d3, d4, d5, d6]).1
          (specChannels [d1, d2, d3, d4, d5, d6]).2.1
          (specChannels [d1, d2, d3, d4, d5, d6]).2.2 := by
    unfold isDarkColor
    rw [hbody]
    show lumaLt90Double ((parseHexNat [d1, d2, d3, d4, d5, d6] >>> 16) &&& 255)
        ((parseHexNat [d1, d2, d3, d4, d5, d6] >>> 8) &&& 255)
        (parseHexNat [d1, d2, d3, d4, d5, d6] &&& 255) = _
    rw [hr, hg, hb]
  constructor
  · intro hlt
    unfold toLight
    rw [if_neg hne, if_neg hnt, hdark]
    simp [hlt]
  · intro hge
    unfold toLight
    rw [if_neg hne, if_neg hnt, hdark]
    simp [hge]

/-- Claim C4: on every valid six-hex-digit color the color adapter is
idempotent. -/
theorem toLight_idempotent (c : String) (h : (matchHex6 c).isSome = true) :
    toLight (toLight c) = toLight c := by
  have hcases : toLight c = c ∨ toLight c = "#e5e7eb" := by
    unfold toLight
    split_ifs <;> simp
  rcases hcases with h1 | h1
  · rw [h1]
    exact h1
  · rw [h1]
    rfl

/-- Witness for C4 at the concrete color `#000000`. -/
theorem toLight_idempotent_witness :
    (matchHex6 "#000000").isSome = true ∧
      toLight (toLight "#000000") = toLight "#000000" :=
  ⟨by rfl, toLight_idempotent "#000000" (by rfl)⟩

theorem jsOr_of_not_truthy (a : Option String) (b : String) (h : jsTruthy a = false) :
    jsOr a b = b := by
  cases a with
  | none => rfl
  | some s =>
    simp [jsTruthy] at h
    simp [jsOr, h]

theorem jsOr_of_some_ne (s : String) (b : String) (h : s ≠ "") :
    jsOr (some s) b = s := by
  simp [jsOr, h]

/-- Claim C1: `identifyImages` returns exactly one descriptor per element
whose type tag is `image` with a truthy asset reference, in input order, and
an element whose asset record is absent still yields a descriptor with no
resolved representation and geometry defaulting to zero when absent. -/
theorem identifyImages_one_per_image_element (elements : List DrawingElement)
    (files : List (String × AssetRecord)) :
    identifyImages elements files
        = (elements.filter isImageElement).map (resolveImage files) ∧
    (∀ e, isImageElement e = true →
      files.lookup ((e.fileId).getD "") = none →
      (resolveImage files e).dataUrl = none ∧
      (resolveImage files e).fileName = none ∧
      ((e.x = none → (resolveImage files e).x = 0) ∧
       (e.y = none → (resolveImage files e).y = 0) ∧
       (e.width = none → (resolveImage files e).width = 0) ∧
       (e.height = none → (resolveImage files e).height = 0))) := by
  constructor
  · induction elements with
    | nil => rfl
    | cons e rest ih =>
      by_cases he : isImageElement e = true
      · simp [identifyImages, List.filter_cons, he, ih]
      · simp [identifyImages, List.filter_cons, he, ih]
  · intro e _ hnone
    refine ⟨?_, ?_, ?_, ?_, ?_, ?_⟩ <;>
      simp [resolveImage, hnone]
    · intro hx
      rw [hx]
      rfl
    · intro hy
      rw [hy]
      rfl
    · intro hw
      rw [hw]
      rfl
    · intro hh
      rw [hh]
      rfl

/-- Witness for C1: one image element with an empty asset map yields exactly
its geometry-only descriptor. -/
theorem identifyImages_one_per_image_element_witness :
    identifyImages [sampleImageElement] []
        = [resolveImage [] sampleImageElement] ∧
    (resolveImage [] sampleImageElement).dataUrl = none ∧
    (resolveImage [] sampleImageElement).x = 0 := by
  have h := identifyImages_one_per_image_element [sampleImageElement] []
  refine ⟨?_, ?_, ?_⟩
  · rw [h.1]
    rfl
  · exact (h.2 sampleImageElement (by rfl) (by rfl)).1
  · exact (h.2 sampleImageElement (by rfl) (by rfl)).2.2.1 (by rfl)

/-- Claim C2: with the asset record present, a truthy ready representation is
used verbatim; otherwise truthy raw bytes yield the data URL
`data: <media type> ;base64, <bytes>` with the media type defaulting to
`image/png`; otherwise the representation stays unresolved. -/
theorem resolveImage_representation_resolution (files : List (String × AssetRecord))
    (e : DrawingElement) (fileData : AssetRecord)
    (hrec : files.lookup ((e.fileId).getD "") = some fileData) :
    (∀ u, fileData.dataURL = some u → u ≠ "" →
        (resolveImage files e).dataUrl = some u) ∧
    (∀ bytes, jsTruthy fileData.dataURL = false → fileData.data = some bytes →
        bytes ≠ "" →
        ((∀ mt, fileData.mimeType = some mt → mt ≠ "" →
            (resolveImage files e).dataUrl
              = some ("data:" ++ mt ++ ";base64," ++ bytes)) ∧
         (jsTruthy fileData.mimeType = false →
            (resolveImage files e).dataUrl
              = some ("data:" ++ "image/png" ++ ";base64," ++ bytes)))) ∧
    (jsTruthy fileData.dataURL = false → jsTruthy fileData.data = false →
        (resolveImage files e).dataUrl = none) := by
  refine ⟨?_, ?_, ?_⟩
  · intro u hu hne
    have ht : jsTruthy (some u) = true := by
      simp [jsTruthy, hne]
    simp [resolveImage, hrec, hu, ht]
  · intro bytes hdu hdata hbne
    have htb : jsTruthy (some bytes) = true := by
      simp [jsTruthy, hbne]
    constructor
    · intro mt hmt hmtne
      have hmime : jsOr fileData.mimeType "image/png" = mt := by
        rw [hmt]
        exact jsOr_of_some_ne mt "image/png" hmtne
      simp [resolveImage, hrec, hdu, htb, hmime, hdata]
    · intro hmt
      have hmime : jsOr fileData.mimeType "image/png" = "image/png" :=
        jsOr_of_not_truthy fileData.mimeType "image/png" hmt
      simp [resolveImage, hrec, hdu, htb, hmime, hdata]
  · intro h1 h2
    simp [resolveImage, hrec, h1, h2]

/-- Witness for C2 at a record holding only raw jpeg bytes. -/
theorem resolveImage_representation_resolution_witness :
    [("f1", assetRawJpeg)].lookup ((sampleImageElement.fileId).getD "")
        = some assetRawJpeg ∧
    (resolveImage [("f1", assetRawJpeg)] sampleImageElement).dataUrl
        = some "data:image/jpeg;base64,QUJD" := by
  have h := resolveImage_representation_resolution [("f1", assetRawJpeg)]
    sampleImageElement assetRawJpeg (by rfl)
  refine ⟨by rfl, ?_⟩
  have h2 := (h.2.1 "QUJD" (by rfl) (by rfl) (by decide)).1 "image/jpeg"
    (by rfl) (by decide)
  rw [h2]
  rfl

/-- Claim C6: the descriptor's display name prefers the record's declared
name, then the record's own identifier, then the asset reference string. -/
theorem resolveImage_fileName_preference (files : List (String × AssetRecord))
    (e : DrawingElement) (fileData : AssetRecord)
    (hrec : files.lookup ((e.fileId).getD "") = some fileData) :
    (∀ nm, fileData.name = some nm → nm ≠ "" →
        (resolveImage files e).fileName = some nm) ∧
    (jsTruthy fileData.name = false → ∀ rid, fileData.id = some rid → rid ≠ "" →
        (resolveImage files e).fileName = some rid) ∧
    (jsTruthy fileData.name = false → jsTruthy fileData.id = false →
        (resolveImage files e).fileName = some ((e.fileId).getD "")) := by
  refine ⟨?_, ?_, ?_⟩
  · intro nm hnm hne
    have : jsOr fileData.name (jsOr fileData.id ((e.fileId).getD "")) = nm := by
      rw [hnm]
      exact jsOr_of_some_ne nm _ hne
    simp [resolveImage, hrec, this]
  · intro hname rid hrid hne
    have : jsOr fileData.name (jsOr fileData.id ((e.fileId).getD "")) = rid := by
      rw [jsOr_of_not_truthy fileData.name _ hname, hrid]
      exact jsOr_of_some_ne rid _ hne
    simp [resolveImage, hrec, this]
  · intro hname hid
    have : jsOr fileData.name (jsOr fileData.id ((e.fileId).getD ""))
        = (e.fileId).getD "" := by
      rw [jsOr_of_not_truthy fileData.name _ hname,
        jsOr_of_not_truthy fileData.id _ hid]
    simp [resolveImage, hrec, this]

/-- Witness for C6 at a record without a declared name: the record's own
identifier is used. -/
theorem resolveImage_fileName_preference_witness :
    [("f1", assetReady)].lookup ((sampleImageElement.fileId).getD "")
        = some assetReady ∧
    (resolveImage [("f1", assetReady)] sampleImageElement).fileName
        = some "asset7" := by
  have h := resolveImage_fileName_preference [("f1", assetReady)]
    sampleImageElement assetReady (by rfl)
  exact ⟨by rfl, h.2.1 (by rfl) "asset7" (by rfl) (by decide)⟩

theorem getProp_eq_ok (v : JSVal) (k : String) (h : v.isNullish = false) :
    v.getProp k = Except.ok (v.getPropD k) := by
  cases v <;> simp_all [JSVal.getProp, JSVal.getPropD, JSVal.isNullish]

/-- Counterexample to C5: a `null` entry in the element list makes
`identifyImages` throw a `TypeError` at the `element.type` read, so the
function does not tolerate arbitrary malformed lists. -/
theorem identifyImagesDyn_raises_on_null_element :
    identifyImagesDyn [JSVal.vNull] (JSVal.vObj [])
      = Except.error "TypeError: Cannot read properties of null" := rfl

theorem identifyImagesLoop_never_raises (elements : List JSVal) (files : JSVal)
    (helems : ∀ e ∈ elements, e.isNullish = false)
    (hfiles : files.isNullish = false) :
    ∃ out, identifyImagesLoop elements files = Except.ok out := by
  induction elements with
  | nil => exact ⟨[], rfl⟩
  | cons e rest ih =>
    obtain ⟨out, hout⟩ := ih (fun x hx => helems x (List.mem_cons_of_mem e hx))
    have he : e.isNullish = false := helems e (List.mem_cons_self e rest)
    have h1 := getProp_eq_ok e "type" he
    have h2 := getProp_eq_ok files ((e.getPropD "fileId").toKeyString) hfiles
    simp only [identifyImagesLoop, h1, h2, hout]
    split_ifs
    · exact ⟨_, rfl⟩
    · exact ⟨out, rfl⟩

/-- Claim C5 (amended): `identifyImages` never raises and returns a list
provided no entry of the element list is `null` or `undefined` and the asset
map argument is not `null` — an `undefined` asset map is replaced by the
empty object by the declared default parameter; malformed non-nullish
elements are skipped or have their missing fields defaulted. -/
theorem identifyImagesDyn_never_raises (elements : List JSVal) (files : JSVal)
    (helems : ∀ e ∈ elements, e.isNullish = false)
    (hfiles : files.isNull = false) :
    ∃ out, identifyImagesDyn elements files = Except.ok out := by
  have hsub : (jsDefaultArg files (JSVal.vObj [])).isNullish = false := by
    cases files <;> simp_all [jsDefaultArg, JSVal.isNullish, JSVal.isNull]
  exact identifyImagesLoop_never_raises elements
    (jsDefaultArg files (JSVal.vObj [])) helems hsub

/-- Witness for the amended C5 at a well-formed one-element list with the
asset map argument left `undefined`, exercising the default parameter. -/
theorem identifyImagesDyn_never_raises_witness :
    ∃ out,
      identifyImagesDyn
        [JSVal.vObj [("type", JSVal.vStr "image"), ("fileId", JSVal.vStr "f1")]]
        JSVal.vUndef = Except.ok out := by
  apply identifyImagesDyn_never_raises
  · intro e he
    rw [List.mem_singleton] at he
    rw [he]
    rfl
  · rfl

/-- Claim C7: with a non-empty image list and a current index in range, the
next operation moves the index to `(i + 1) mod N` (so from `N - 1` to `0`)
and the previous operation moves it to `(i - 1 + N) mod N` (so from `0` to
`N - 1`). -/
theorem modal_navigation_wraps (images : List ImageInfo) (s : ModalState)
    (h0 : 0 ≤ s.currentImageIndex)
    (hlt : s.currentImageIndex < (images.length : Int)) :
    (navigateToNextImage images s).currentImageIndex
        = (s.currentImageIndex + 1) % (images.length : Int) ∧
    (navigateToPrevImage images s).currentImageIndex
        = (s.currentImageIndex - 1 + images.length) % (images.length : Int) ∧
    (s.currentImageIndex = (images.length : Int) - 1 →
        (navigateToNextImage images s).currentImageIndex = 0) ∧
    (s.currentImageIndex = 0 →
        (navigateToPrevImage images s).currentImageIndex
          = (images.length : Int) - 1) := by
  have hN : images.length ≠ 0 := by
    intro h
    rw [h] at hlt
    simp at hlt
    omega
  have hnext : (navigateToNextImage images s).currentImageIndex
      = Int.tmod (s.currentImageIndex + 1) images.length := by
    simp [navigateToNextImage, hN]
  have hprev : (navigateToPrevImage images s).currentImageIndex
      = Int.tmod (s.currentImageIndex - 1 + images.length) images.length := by
    simp [navigateToPrevImage, hN]
  have tnext : Int.tmod (s.currentImageIndex + 1) (images.length : Int)
      = (s.currentImageIndex + 1) % (images.length : Int) :=
    Int.tmod_eq_emod (by omega) (by omega)
  have tprev : Int.tmod (s.currentImageIndex - 1 + images.length)
        (images.length : Int)
      = (s.currentImageIndex - 1 + images.length) % (images.length : Int) :=
    Int.tmod_eq_emod (by omega) (by omega)
  refine ⟨hnext.trans tnext, hprev.trans tprev, ?_, ?_⟩
  · intro hi
    rw [hnext, tnext, hi]
    have h1 : (images.length : Int) - 1 + 1 = images.length := by ring
    rw [h1, Int.emod_self]
  · intro hi
    rw [hprev, tprev, hi]
    have h1 : (0 : Int) - 1 + images.length = (images.length : Int) - 1 := by ring
    rw [h1, Int.emod_eq_of_lt (by omega) (by omega)]

/-- Witness for C7 on a two-image list at index 0: next goes to 1, previous
wraps to 1 = N - 1. -/
theorem modal_navigation_wraps_witness :
    (navigateToNextImage [sampleImage1, sampleImage2] sampleOpenModal).currentImageIndex = 1 ∧
    (navigateToPrevImage [sampleImage1, sampleImage2] sampleOpenModal).currentImageIndex = 1 := by
  have h := modal_navigation_wraps [sampleImage1, sampleImage2] sampleOpenModal
    (by decide) (by decide)
  constructor
  · rw [h.1]
    decide
  · rw [h.2.2.2 (by decide)]
    decide

/-- Claim C8: from every open modal state, Escape closes the modal and clears
the selected image, regardless of the current index; in the closed state the
gesture leaves the state unchanged. -/
theorem escape_closes_modal (images : List ImageInfo) (s : ModalState) :
    (s.isModalOpen = true →
      (handleKeyboard images s "Escape").isModalOpen = false ∧
      (handleKeyboard images s "Escape").selectedImage = none) ∧
    (s.isModalOpen = false → handleKeyboard images s "Escape" = s) := by
  constructor
  · intro hopen
    constructor <;> simp [handleKeyboard, hopen]
  · intro hclosed
    simp [handleKeyboard, hclosed]

/-- Witness for C8 at a concrete open state. -/
theorem escape_closes_modal_witness :
    sampleOpenModal.isModalOpen = true ∧
    (handleKeyboard [sampleImage1] sampleOpenModal "Escape").isModalOpen = false ∧
    (handleKeyboard [sampleImage1] sampleOpenModal "Escape").selectedImage = none := by
  have h := (escape_closes_modal [sampleImage1] sampleOpenModal).1 (by rfl)
  exact ⟨by rfl, h.1, h.2⟩

/-- Claim C9: with the viewer not loading, the print path records the current
document theme, forces the light theme and stores it, and the afterprint
handler restores document theme and stored preference to the starting
theme. -/
theorem print_path_restores_theme (s : ThemeState) :
    (handlePrintPDF false s).previousTheme
        = some (if s.docDark then "dark" else "light") ∧
    (handlePrintPDF false s).docDark = false ∧
    (handlePrintPDF false s).storedTheme = "light" ∧
    (handleAfterPrint (handlePrintPDF false s)).docDark = s.docDark ∧
    (handleAfterPrint (handlePrintPDF false s)).storedTheme
        = (if s.docDark then "dark" else "light") := by
  cases hd : s.docDark <;>
    simp [handlePrintPDF, handleAfterPrint, hd]

/-- Claim C10: the viewer installs only `__generateLightSVG`,
`__forceLightRender` and `__isLoading` on the `[data-excal]` container, never
`__generateSVG`, so the regeneration branch of the download handler is
unreachable and a download always serializes the currently rendered SVG or
the article-level fallback. -/
theorem download_regeneration_unreachable (env : DownloadEnv)
    (hkeys : env.excalKeys = excalExposedKeys) :
    excalExposedKeys.contains "__generateSVG" = false ∧
    (∀ svg, handleDownloadSVG env ≠ DownloadOutcome.regenerated svg) ∧
    (env.isExcalLoading = false → env.excalPresent = true →
      handleDownloadSVG env
        = (match env.renderedSvg, env.articleSvg with
           | some svg, _ => DownloadOutcome.renderedCurrent svg
           | none, some svg => DownloadOutcome.articleFallback svg
           | none, none => DownloadOutcome.noSvg)) := by
  have hc : excalExposedKeys.contains "__generateSVG" = false := by rfl
  have hm : "__generateSVG" ∉ excalExposedKeys := by decide
  refine ⟨hc, ?_, ?_⟩
  · intro svg
    cases hL : env.isExcalLoading <;> cases hP : env.excalPresent <;>
      cases hr : env.renderedSvg <;> cases ha : env.articleSvg <;>
        simp [handleDownloadSVG, hkeys, hc, hm, hL, hP, hr, ha]
  · intro hload hpresent
    cases hr : env.renderedSvg <;> cases ha : env.articleSvg <;>
      simp [handleDownloadSVG, hkeys, hc, hm, hload, hpresent, hr, ha]

/-- Witness for C10: in a non-loading environment exposing exactly the
viewer's keys, the download yields the currently rendered SVG even though a
regeneration result would be available. -/
theorem download_regeneration_unreachable_witness :
    sampleDownloadEnv.excalKeys = excalExposedKeys ∧
    handleDownloadSVG sampleDownloadEnv = DownloadOutcome.renderedCurrent "current" := by
  have h := download_regeneration_unreachable sampleDownloadEnv (by rfl)
  refine ⟨by rfl, ?_⟩
  rw [h.2.2 (by rfl) (by rfl)]
  rfl

/-- Witness for the amended C3 at the concrete color black: the regex
matches, the double-evaluated luma is below the threshold, and the
light-gray substitute is returned. -/
theorem toLight_characterization_witness :
    matchHex6 "#000000" = some ['0', '0', '0', '0', '0', '0'] ∧
    lumaLt90Double (specChannels ['0', '0', '0', '0', '0', '0']).1
      (specChannels ['0', '0', '0', '0', '0', '0']).2.1
      (specChannels ['0', '0', '0', '0', '0', '0']).2.2 = true ∧
    toLight "#000000" = "#e5e7eb" := by
  have h := (toLight_characterization "#000000").1
    ['0', '0', '0', '0', '0', '0'] (by rfl)
  exact ⟨by rfl, by decide, h.1 (by decide)⟩
